import Mathlib

/-!
Verification development for the fmriflows anatomical preprocessing pipeline
(notebooks/01_preproc_anat.ipynb).

The notebook wires nipype interfaces into a workflow named preproc_anat.
Here we shallowly embed the parts of the notebook that the verified claims
are about: the workflow's node table and connection list, the custom glue
functions get_brain_and_mask, write_report (with its helper get_cut_ids)
and create_file_path, the template-path construction, the session-list
default, and the outcome of running the workflow with the sequential
Linear plugin.  Images are modelled as rational-valued functions on a
finite voxel grid (floating-point values are modelled as exact rationals);
external library operations used by the glue code (scipy binary
morphology, nilearn math_img, pybids build_path) are embedded from their
documented behaviour at the call sites that appear in the notebook.
-/

namespace FmriFlows

/-! ## Python string replace

The glue code calls Python str.replace, which replaces every
non-overlapping occurrence of the pattern, scanning left to right.
All call sites in the notebook use a non-empty pattern. -/

/-- Fuel-based worker for pyReplace, on character lists.  At each position it
either replaces a pattern occurrence and skips past it, or keeps the
character and moves on. -/
def replaceList : Nat → List Char → List Char → List Char → List Char
  | 0, s, _, _ => s
  | Nat.succ n, s, pat, rep =>
    match s with
    | [] => []
    | c :: cs =>
      if pat.isPrefixOf (c :: cs) then
        rep ++ replaceList n ((c :: cs).drop pat.length) pat rep
      else
        c :: replaceList n cs pat rep

/-- Models Python str.replace (replace all occurrences, left to right). -/
def pyReplace (s pat rep : String) : String :=
  String.mk (replaceList (s.length + 1) s.data pat.data rep.data)

/-! ## The workflow graph

The nodes declared in the notebook and the connection list passed to
preproc_anat.connect. -/

/-- The named nodes of the preproc_anat workflow, one per Node(...) in the
notebook. -/
inductive NodeName
  | infosource
  | selectfiles
  | reorient
  | cropFOV
  | n4
  | gunzip
  | segment
  | extract_brain
  | antsreg
  | datasink
  | create_report
deriving DecidableEq, Fintype

open NodeName

/-- The interface each node wraps.  Stock nipype interfaces are external
tools; Function wraps a Python function defined in the notebook itself
(named by the string). -/
inductive Interface
  | Reorient
  | RobustFOV
  | N4BiasFieldCorrection
  | Gunzip
  | NewSegment
  | Registration
  | IdentityInterface
  | DataSink
  | Function (fn : String)
deriving DecidableEq

/-- The Python name of each node, as given by name=... in the notebook. -/
def nameOf : NodeName → String
  | .infosource => "infosource"
  | .selectfiles => "selectfiles"
  | .reorient => "reorient"
  | .cropFOV => "cropFOV"
  | .n4 => "n4"
  | .gunzip => "gunzip"
  | .segment => "segment"
  | .extract_brain => "extract_brain"
  | .antsreg => "antsreg"
  | .datasink => "datasink"
  | .create_report => "create_report"

/-- The interface wrapped by each node, from the Node(...) declarations. -/
def interfaceOf : NodeName → Interface
  | .infosource => .IdentityInterface
  | .selectfiles => .Function "create_file_path"
  | .reorient => .Reorient
  | .cropFOV => .RobustFOV
  | .n4 => .N4BiasFieldCorrection
  | .gunzip => .Gunzip
  | .segment => .NewSegment
  | .extract_brain => .Function "get_brain_and_mask"
  | .antsreg => .Registration
  | .datasink => .DataSink
  | .create_report => .Function "write_report"

/-- Whether an interface is a stock (externally implemented) nipype
interface rather than a Function node wrapping notebook code. -/
def isExternalInterface : Interface → Bool
  | .Function _ => false
  | _ => true

/-- All workflow nodes, in the order they are first mentioned in the
connect list. -/
def nodes : List NodeName :=
  [infosource, selectfiles, reorient, cropFOV, n4, gunzip, segment,
   extract_brain, antsreg, datasink, create_report]

/-- One entry of the expanded connection list: data flows from the
srcField output of src to the dstField input of dst. -/
structure Conn where
  src : NodeName
  srcField : String
  dst : NodeName
  dstField : String
deriving DecidableEq

/-- The connection list passed to preproc_anat.connect, with each
(source, dest, field-pair list) tuple expanded into one entry per field
pair, in source order. -/
def connections : List Conn :=
  [⟨infosource, "subject_id", selectfiles, "subject_id"⟩,
   ⟨infosource, "session_id", selectfiles, "session_id"⟩,
   -- Main part of workflow
   ⟨selectfiles, "anat", reorient, "in_file"⟩,
   ⟨reorient, "out_file", cropFOV, "in_file"⟩,
   ⟨cropFOV, "out_roi", n4, "input_image"⟩,
   ⟨n4, "output_image", gunzip, "in_file"⟩,
   ⟨gunzip, "out_file", segment, "channel_files"⟩,
   ⟨segment, "native_class_images", extract_brain, "segments"⟩,
   ⟨n4, "output_image", extract_brain, "in_file"⟩,
   ⟨extract_brain, "out_file", antsreg, "moving_image"⟩,
   -- Store main results in datasink
   ⟨n4, "output_image", datasink, "preproc_anat.@n4"⟩,
   ⟨segment, "native_class_images", datasink, "preproc_anat.@segment"⟩,
   ⟨extract_brain, "out_file", datasink, "preproc_anat.@brain"⟩,
   ⟨extract_brain, "mask", datasink, "preproc_anat.@mask"⟩,
   ⟨antsreg, "warped_image", datasink, "preproc_anat.@warped_image"⟩,
   ⟨antsreg, "inverse_warped_image", datasink, "preproc_anat.@inverse_warped_image"⟩,
   ⟨antsreg, "composite_transform", datasink, "preproc_anat.@transform"⟩,
   ⟨antsreg, "inverse_composite_transform", datasink, "preproc_anat.@inverse_transform"⟩,
   -- Create visual report
   ⟨infosource, "subject_id", create_report, "sub"⟩,
   ⟨infosource, "session_id", create_report, "sess"⟩,
   ⟨n4, "output_image", create_report, "n4"⟩,
   ⟨segment, "native_class_images", create_report, "segments"⟩,
   ⟨extract_brain, "out_file", create_report, "brain"⟩,
   ⟨antsreg, "warped_image", create_report, "warped_file"⟩,
   ⟨create_report, "out_segmentation", datasink, "preproc_anat.@vis_segmentation"⟩,
   ⟨create_report, "out_brain", datasink, "preproc_anat.@vis_brain"⟩,
   ⟨create_report, "out_warp", datasink, "preproc_anat.@vis_warp"⟩]

/-- Output fields of each node.  For Function nodes and the
IdentityInterface these are the output_names / fields declared in the
notebook; for the stock nipype interfaces they are the output traits of
the external interface definition (listing the ones this workflow reads
plus the remaining documented outputs where short). -/
def outputFieldsOf : NodeName → List String
  | .infosource => ["subject_id", "session_id"]
  | .selectfiles => ["anat"]
  | .reorient => ["out_file", "transform"]
  | .cropFOV => ["out_roi", "out_transform"]
  | .n4 => ["output_image", "bias_image"]
  | .gunzip => ["out_file"]
  | .segment => ["native_class_images", "dartel_input_images", "transformation_mat",
                 "bias_corrected_images", "bias_field_images",
                 "modulated_class_images", "normalized_class_images"]
  | .extract_brain => ["out_file", "mask"]
  | .antsreg => ["warped_image", "inverse_warped_image", "composite_transform",
                 "inverse_composite_transform", "forward_transforms", "reverse_transforms"]
  | .datasink => ["out_file"]
  | .create_report => ["out_segmentation", "out_brain", "out_warp"]

/-- Input fields of each node (same conventions as outputFieldsOf). -/
def inputFieldsOf : NodeName → List String
  | .infosource => ["subject_id", "session_id"]
  | .selectfiles => ["subject_id", "session_id", "layout", "T1_id"]
  | .reorient => ["in_file", "orientation"]
  | .cropFOV => ["in_file", "output_type", "brainsize"]
  | .n4 => ["input_image", "dimension", "bspline_fitting_distance", "n_iterations"]
  | .gunzip => ["in_file"]
  | .segment => ["channel_files", "channel_info", "tissues", "affine_regularization"]
  | .extract_brain => ["in_file", "segments"]
  | .antsreg => ["fixed_image", "moving_image", "metric", "transforms"]
  | .datasink => []
  | .create_report => ["sub", "sess", "n4", "segments", "brain", "T1_template", "warped_file"]

/-- Whether field is an acceptable input name for node n.  A DataSink
accepts arbitrary (dynamically created) input names. -/
def inputOk (n : NodeName) (field : String) : Bool :=
  match n with
  | .datasink => true
  | _ => field ∈ inputFieldsOf n

/-- A topological numbering of the workflow nodes, used to establish
acyclicity of the connection list. -/
def topoIndex : NodeName → Nat
  | .infosource => 0
  | .selectfiles => 1
  | .reorient => 2
  | .cropFOV => 3
  | .n4 => 4
  | .gunzip => 5
  | .segment => 6
  | .extract_brain => 7
  | .antsreg => 8
  | .create_report => 9
  | .datasink => 10

/-- Boolean edge relation of the workflow graph: some connection carries
data from a to b. -/
def edgeRel (a b : NodeName) : Bool :=
  connections.any (fun c => c.src == a && c.dst == b)

/-- The data-dependency relation between nodes declared by the connect
list. -/
def Depends (a b : NodeName) : Prop :=
  edgeRel a b = true

/-- The plugin name the notebook passes to preproc_anat.run. -/
def runPlugin : String := "Linear"

/-- Fuel-based topological sort of the workflow nodes: repeatedly emit the
first remaining node with no incoming edge from another remaining node. -/
def topoSortFuel : Nat → List NodeName → List NodeName
  | 0, _ => []
  | Nat.succ n, rem =>
    match rem.find? (fun a => rem.all (fun b => !edgeRel b a)) with
    | some a => a :: topoSortFuel n (rem.erase a)
    | none => []

/-- Modelled from the documented behaviour of nipype's Linear plugin
(external to this repository): preproc_anat.run with the Linear plugin
executes the workflow nodes sequentially, one at a time, in a topological
order of the dependency graph.  This is the order of that sequential
execution. -/
def linearSchedule : List NodeName :=
  topoSortFuel nodes.length nodes

/-! ## Template paths

Cell "Creation of template brain with desired voxel resolution": the ICBM
template is resampled to the requested voxel resolution and written next
to the original; antsreg registers to this resampled template.  norm_res
is modelled as its already-stringified entries (str of each number). -/

/-- Directory of the ICBM template (template_dir in the notebook). -/
def template_dir : String := "/templates/mni_icbm152_nlin_asym_09c/"

/-- Path of the original 1.0mm template brain (opj of a directory ending
in a slash is concatenation). -/
def brain_template : String := template_dir ++ "1.0mm_brain.nii.gz"

/-- Path the resampled template brain is written to:
template_brain_(entries of norm_res joined by underscores).nii.gz inside
template_dir. -/
def norm_template (norm_res : List String) : String :=
  template_dir ++ "template_brain_" ++ String.intercalate "_" norm_res ++ ".nii.gz"

/-- The orientation argument of the reorient node: Reorient(orientation='RAS'). -/
def reorient_orientation : String := "RAS"

/-- The settings of the antsreg Registration node that the claims refer
to (the remaining settings are numeric optimizer parameters of the
external tool). -/
structure RegistrationConfig where
  fixed_image : String
  output_warped_image : Bool
  output_inverse_warped_image : Bool
  transforms : List String
deriving DecidableEq

/-- The antsreg node configuration: registration to the resampled
template. -/
def antsreg_config (norm_res : List String) : RegistrationConfig :=
  { fixed_image := norm_template norm_res
    output_warped_image := true
    output_inverse_warped_image := true
    transforms := ["Rigid", "Affine", "SyN"] }

/-- The six processing steps of the pipeline, as enumerated in the
notebook's own header cell (reorientation, FOV cropping, N4 correction,
segmentation, brainmask creation and brain extraction, normalization). -/
def processingSteps : List NodeName :=
  [reorient, cropFOV, n4, segment, extract_brain, antsreg]

/-! ## Images

Images are rational-valued functions on a finite voxel grid.  A nibabel
Nifti1Image additionally carries an affine and a header. -/

/-- Voxel-grid dimensions of an image. -/
structure Dims where
  x : Nat
  y : Nat
  z : Nat

/-- A voxel coordinate in a grid of dimensions d. -/
abbrev Coord (d : Dims) := Fin d.x × Fin d.y × Fin d.z

/-- Voxel data of an image (floating-point values modelled as exact
rationals). -/
abbrev Img (d : Dims) := Coord d → ℚ

/-- A boolean (mask) image. -/
abbrev BImg (d : Dims) := Coord d → Bool

/-- A 4x4 affine matrix. -/
abbrev Affine := Fin 4 → Fin 4 → ℚ

/-- A nibabel image: voxel data plus affine and header.  The header is an
opaque value of an arbitrary type H. -/
structure Nifti (d : Dims) (H : Type) where
  data : Img d
  affine : Affine
  header : H

/-- Numeric value of a boolean voxel (nilearn's new_img_like stores
boolean results of math_img as int8, so True counts as 1 and False
as 0 in later arithmetic). -/
def b2q (b : Bool) : ℚ := if b then 1 else 0

/-! ## scipy binary morphology

The notebook calls scipy.ndimage.morphology.binary_dilation,
binary_fill_holes and binary_erosion with their default structuring
element, which in 3D is the 6-connected cross (centre plus face
neighbours), and with the default border value 0 (voxels outside the
array count as background). -/

/-- Whether two voxels are 6-connected face neighbours (Manhattan
distance exactly 1). -/
def adj {d : Dims} (p q : Coord d) : Bool :=
  ((p.1.val : ℤ) - q.1.val).natAbs + ((p.2.1.val : ℤ) - q.2.1.val).natAbs
    + ((p.2.2.val : ℤ) - q.2.2.val).natAbs == 1

/-- Whether a voxel has all six face neighbours inside the grid. -/
def interior {d : Dims} (p : Coord d) : Bool :=
  decide (0 < p.1.val ∧ p.1.val + 1 < d.x ∧ 0 < p.2.1.val ∧ p.2.1.val + 1 < d.y
    ∧ 0 < p.2.2.val ∧ p.2.2.val + 1 < d.z)

/-- One binary dilation with the cross structuring element: a voxel is set
if it or any in-grid face neighbour is set (out-of-grid voxels are
background). -/
def dilateOnce {d : Dims} (m : BImg d) : BImg d :=
  fun p => m p || decide (∃ q : Coord d, adj p q = true ∧ m q = true)

/-- One binary erosion with the cross structuring element and border
value 0: a voxel stays set only if it is set, all six neighbour positions
lie inside the grid, and all of them are set. -/
def erodeOnce {d : Dims} (m : BImg d) : BImg d :=
  fun p => interior p && m p && decide (∀ q : Coord d, adj p q = true → m q = true)

/-- scipy binary_dilation with the given iteration count. -/
def binary_dilation {d : Dims} (m : BImg d) (iterations : Nat) : BImg d :=
  dilateOnce^[iterations] m

/-- scipy binary_erosion with the given iteration count. -/
def binary_erosion {d : Dims} (m : BImg d) (iterations : Nat) : BImg d :=
  erodeOnce^[iterations] m

/-- Seed of the hole-filling flood fill: background voxels on the grid
boundary (these touch the zero padding scipy adds around the array). -/
def floodSeed {d : Dims} (m : BImg d) : Finset (Coord d) :=
  Finset.univ.filter (fun p => !(interior p) && !(m p))

/-- One expansion step of the flood fill: add every background voxel
adjacent to an already reached voxel. -/
def floodStep {d : Dims} (m : BImg d) (S : Finset (Coord d)) : Finset (Coord d) :=
  S ∪ Finset.univ.filter (fun p => !(m p) && decide (∃ q ∈ S, adj p q = true))

/-- All background voxels reachable from the boundary through background,
by 6-connectivity; iterating once per voxel reaches the closure. -/
def floodReach {d : Dims} (m : BImg d) : Finset (Coord d) :=
  (floodStep m)^[d.x * d.y * d.z] (floodSeed m)

/-- scipy binary_fill_holes: set every voxel whose background component
does not touch the array border. -/
def binary_fill_holes {d : Dims} (m : BImg d) : BImg d :=
  fun p => m p || !(decide (p ∈ floodReach m))

/-! ## get_brain_and_mask

The notebook's custom brain-mask computation.  segments is the list of
native_class_images from NewSegment; the function unpacks the first file
of each of the five tissue classes, in order GM, WM, CSF, skull, head. -/

/-- The five tissue probability maps unpacked by
gm, wm, csf, skull, head = [s[0] for s in segments]. -/
structure SegmentMaps (d : Dims) where
  gm : Img d
  wm : Img d
  csf : Img d
  skull : Img d
  head : Img d

/-- Result of get_brain_and_mask: the two output paths and the two images
written to them. -/
structure BrainMaskResult (d : Dims) (H : Type) where
  out_file : String
  brain : Nifti d H
  mask : String
  maskImg : Nifti d H

/-- Embedding of get_brain_and_mask.  Each math_img call evaluates its
formula voxelwise; boolean intermediate results are stored as int8 (0/1)
by nilearn's new_img_like, so they participate in the later arithmetic as
0 or 1.  The raw mask is refined by two binary dilations, hole filling
and one binary erosion, cast to int8, and packaged with the affine and
header of the input image; the brain is the voxelwise product of the
input image and the mask. -/
def get_brain_and_mask {d : Dims} {H : Type} (in_file : String) (img : Nifti d H)
    (segments : SegmentMaps d) : BrainMaskResult d H :=
  let gm := segments.gm
  let wm := segments.wm
  let csf := segments.csf
  let skull := segments.skull
  let head := segments.head
  let img_gmwm : Coord d → ℚ := fun p => b2q (decide (gm p + wm p ≥ 0.25))
  let img_csf : Coord d → ℚ := fun p => b2q (decide (csf p ≥ 1.0))
  let img_not_rest : Coord d → ℚ := fun p => b2q (decide (head p + skull p ≥ 0.25))
  let img_mask : BImg d :=
    fun p => decide (img_gmwm p + img_csf p - img_not_rest p ≥ 1.0)
  let data_mask : Coord d → ℚ :=
    fun p => b2q (binary_erosion (binary_fill_holes (binary_dilation img_mask 2)) 1 p)
  let img_mask2 : Nifti d H := ⟨data_mask, img.affine, img.header⟩
  let img_brain : Nifti d H :=
    ⟨fun p => img.data p * img_mask2.data p, img.affine, img.header⟩
  { out_file := pyReplace in_file ".nii" "_brain.nii"
    brain := img_brain
    mask := pyReplace in_file ".nii" "_brainmask.nii"
    maskImg := img_mask2 }

/-- The claimed raw brain-mask predicate: the voxelwise test
((GM+WM at least 0.25) + (CSF at least 1.0) - (head+skull at least 0.25))
at least 1.0, with the three boolean subterms counted as 0/1. -/
def rawBrainMask {d : Dims} (s : SegmentMaps d) : BImg d :=
  fun p =>
    decide (b2q (decide (s.gm p + s.wm p ≥ 0.25)) + b2q (decide (s.csf p ≥ 1.0))
      - b2q (decide (s.head p + s.skull p ≥ 0.25)) ≥ 1.0)

/-- The claimed refinement of the raw mask: two binary dilations, then
hole filling, then one binary erosion. -/
def refinedBrainMask {d : Dims} (s : SegmentMaps d) : BImg d :=
  binary_erosion (binary_fill_holes (binary_dilation (rawBrainMask s) 2)) 1

/-! ## get_cut_ids

The cut-coordinate helper defined inside write_report.  It collects the
axis components of the nonzero voxel coordinates (np.nonzero followed by
indexing with the axis and np.sort; sorting does not affect the minimum
and maximum), takes 12 evenly spaced values between their minimum and
maximum (np.linspace with endpoint=True, truncated to int), drops the
first two and last two, and maps each through the image affine
(nilearn coord_transform with the other two coordinates 0, keeping the
component of the chosen axis, truncated to int).  On an all-zero image
idx.min() is the minimum of an empty array and raises ValueError, which
is modelled as none. -/

/-- Python int() / numpy astype(int) truncation toward zero: the
numerator T-divided by the denominator (Int.div rounds toward zero). -/
def ratTrunc (q : ℚ) : ℤ :=
  Int.tdiv q.num (q.den : ℤ)

/-- The axis component of a voxel coordinate (nonzero()[axis]). -/
def axisVal {d : Dims} (p : Coord d) (axis : Fin 3) : Nat :=
  if axis.val = 0 then p.1.val
  else if axis.val = 1 then p.2.1.val
  else p.2.2.val

/-- The set of axis components of the nonzero voxels of an image. -/
def nonzeroIdx {d : Dims} {H : Type} (img : Nifti d H) (axis : Fin 3) : Finset Nat :=
  (Finset.univ.filter (fun p : Coord d => img.data p ≠ 0)).image (fun p => axisVal p axis)

/-- np.linspace(lo, hi, num=12, endpoint=True).astype(int): the values
lo + i*(hi-lo)/11 for i = 0..11, truncated to int. -/
def linspace12 (lo hi : Nat) : List ℤ :=
  (List.range 12).map (fun (i : Nat) => ratTrunc ((lo : ℚ) + (i : ℚ) * (((hi : ℚ) - (lo : ℚ)) / 11)))

/-- coord_transform with the value r in the slot of the chosen axis and 0
in the other two slots, keeping the component of that axis and truncating
to int. -/
def coordTransformAxis (affine : Affine) (axis : Fin 3) (r : ℤ) : ℤ :=
  if axis.val = 0 then ratTrunc (affine 0 0 * (r : ℚ) + affine 0 3)
  else if axis.val = 1 then ratTrunc (affine 1 1 * (r : ℚ) + affine 1 3)
  else ratTrunc (affine 2 2 * (r : ℚ) + affine 2 3)

/-- Embedding of get_cut_ids.  The [2:-2] slice of the 12-element linspace
is drop 2 followed by take 8. -/
def get_cut_ids {d : Dims} {H : Type} (img : Nifti d H) (axis : Fin 3) :
    Option (List ℤ) :=
  let s := nonzeroIdx img axis
  if h : s.Nonempty then
    let vox_id := ((linspace12 (s.min' h) (s.max' h)).drop 2).take 8
    some (vox_id.map (coordTransformAxis img.affine axis))
  else
    none

/-! ## write_report

The pure content of write_report: the three SVG output paths, the report
file name and path.  The plotting calls only read images and write the
SVG files at these paths; the HTML text substitution fills a template
file that lives outside the repository. -/

/-- The path outputs of write_report. -/
structure ReportPaths where
  out_segmentation : String
  out_brain : String
  out_warp : String
  report_file : String
deriving DecidableEq

/-- Embedding of the path computations of write_report: the SVG paths by
Python str.replace on the brain and warped-image paths, and the report
path from the session-dependent file name under
/data/derivatives/fmriflows (os.path.join of those components). -/
def write_report (sub sess : String) (n4_file : String) (segments : List String)
    (brain T1_template warped_file : String) : ReportPaths :=
  let _ := n4_file
  let _ := segments
  let _ := T1_template
  let out_segmentation := pyReplace brain "brain.nii.gz" "segmentation.svg"
  let out_brain := pyReplace brain ".nii.gz" ".svg"
  let out_warp := pyReplace warped_file ".nii.gz" ".svg"
  let filename :=
    if sess ≠ "" then "sub-" ++ sub ++ "_ses-" ++ sess ++ ".html"
    else "sub-" ++ sub ++ ".html"
  { out_segmentation := out_segmentation
    out_brain := out_brain
    out_warp := out_warp
    report_file := "/data/derivatives/fmriflows/" ++ filename }

/-! ## create_file_path

The selectfiles Function node: it builds the anatomical file path with
pybids layout.build_path over an explicit path pattern.  The pattern
language is embedded from pybids' documented semantics at this call
site: placeholders are replaced by entity values, square-bracketed
groups are included exactly when the entities inside them are present,
and a missing required entity makes the build fail. -/

/-- An atom of a pybids path pattern: a literal or an entity placeholder. -/
inductive PatAtom
  | lit (s : String)
  | ent (name : String)
deriving DecidableEq

/-- A pattern element: a plain atom or an optional bracketed group. -/
inductive Pat
  | atom (a : PatAtom)
  | opt (parts : List PatAtom)
deriving DecidableEq

/-- Render one atom against the entity table (none if a required entity
is missing). -/
def renderAtom (entities : List (String × String)) : PatAtom → Option String
  | .lit s => some s
  | .ent n => entities.lookup n

/-- Render a list of atoms, failing if any entity is missing. -/
def renderAtoms (entities : List (String × String)) : List PatAtom → Option String
  | [] => some ""
  | a :: rest => do
    let s ← renderAtom entities a
    let t ← renderAtoms entities rest
    pure (s ++ t)

/-- Render a pattern element: an optional group renders to the empty
string when an entity inside it is missing. -/
def renderPat (entities : List (String × String)) : Pat → Option String
  | .atom a => renderAtom entities a
  | .opt parts => some ((renderAtoms entities parts).getD "")

/-- pybids layout.build_path over a single path pattern. -/
def build_path (entities : List (String × String)) : List Pat → Option String
  | [] => some ""
  | p :: rest => do
    let s ← renderPat entities p
    let t ← build_path entities rest
    pure (s ++ t)

/-- The path pattern of create_file_path, tokenized from the two
concatenated pattern strings in the notebook (entity placeholders in
braces, optional groups in square brackets). -/
def path_pattern : List Pat :=
  [.atom (.lit "sub-"), .atom (.ent "subject_id"),
   .opt [.lit "/ses-", .ent "session_id"],
   .atom (.lit "/anat/"),
   .atom (.lit "sub-"), .atom (.ent "subject_id"),
   .opt [.lit "_ses-", .ent "session_id"],
   .atom (.lit "_"), .atom (.ent "T1_id"), .atom (.lit ".nii.gz")]

/-- Embedding of create_file_path: the entity table holds subject_id and
T1_id, with session_id added only when non-empty; the built relative path
is joined under /data (os.path.join with a relative second argument). -/
def create_file_path (subject_id session_id T1_id : String) : Option String :=
  let entities :=
    [("subject_id", subject_id), ("T1_id", T1_id)]
      ++ (if session_id ≠ "" then [("session_id", session_id)] else [])
  (build_path entities path_pattern).map (fun fpath => "/data/" ++ fpath)

/-! ## Session list and subject/session iteration -/

/-- The session-list default: session_list if session_list else [''] —
an empty BIDS session list is replaced by the singleton empty string
(Python truthiness of a list is non-emptiness). -/
def session_list (raw : List String) : List String :=
  if raw.isEmpty then [""] else raw

/-- Modelled from nipype's documented iterables semantics (external to
this repository): iterables over two fields expand into the cartesian
product of the two value lists, one workflow instantiation per
(subject_id, session_id) pair. -/
def iterable_combinations (subjects sessions : List String) :
    List (String × String) :=
  subjects.flatMap (fun sub => sessions.map (fun ses => (sub, ses)))

/-! ## Node classification used by the black-box claim -/

/-- The workflow steps that run an image-processing algorithm
(reorientation, cropping, bias correction, segmentation, registration
optimization). -/
def imageProcessingAlgorithmSteps : List NodeName :=
  [reorient, cropFOV, n4, segment, antsreg]

/-- Modelled from the spec: the notebook's own data transformations are
the brain-mask computation (get_brain_and_mask) and the report rendering
(write_report). -/
def specOwnImageTransformations : List String :=
  ["get_brain_and_mask", "write_report"]

/-- The Function nodes of the workflow, i.e. the nodes implemented by
Python functions defined in the notebook, with their function names. -/
def functionNodes : List (NodeName × String) :=
  nodes.filterMap (fun n =>
    match interfaceOf n with
    | .Function f => some (n, f)
    | _ => none)

/-- The nodes whose outputs are image files (every node downstream of
selectfiles except the report node, which outputs SVG paths). -/
def producesImageData (nd : NodeName) : Bool :=
  nd ∈ [reorient, cropFOV, n4, gunzip, segment, extract_brain, antsreg]

/-- Whether a node receives image data through some connection, i.e. has
an incoming edge from an image-producing node. -/
def receivesImageData (nd : NodeName) : Bool :=
  connections.any (fun c => c.dst == nd && producesImageData c.src)

/-! ## Helper lemmas -/

/-- Every connection goes from a lower to a higher topological index. -/
theorem edge_topoIndex_lt : ∀ a b : NodeName, edgeRel a b = true → topoIndex a < topoIndex b := by
  decide

/-- The topological index increases along any nonempty dependency path. -/
theorem transGen_depends_lt {a b : NodeName} (h : Relation.TransGen Depends a b) :
    topoIndex a < topoIndex b := by
  induction h with
  | single h => exact edge_topoIndex_lt _ _ h
  | tail _ h ih => exact Nat.lt_trans ih (edge_topoIndex_lt _ _ h)

/-- The nonzero index set of an image is nonempty exactly when the image
has a nonzero voxel. -/
theorem nonzeroIdx_nonempty_iff {d : Dims} {H : Type} (img : Nifti d H) (axis : Fin 3) :
    (nonzeroIdx img axis).Nonempty ↔ ∃ p : Coord d, img.data p ≠ 0 := by
  unfold nonzeroIdx
  constructor
  · rintro ⟨v, hv⟩
    rw [Finset.mem_image] at hv
    obtain ⟨p, hp, _⟩ := hv
    rw [Finset.mem_filter] at hp
    exact ⟨p, hp.2⟩
  · rintro ⟨p, hp⟩
    exact ⟨axisVal p axis, Finset.mem_image.mpr
      ⟨p, Finset.mem_filter.mpr ⟨Finset.mem_univ _, hp⟩, rfl⟩⟩

/-- The 12-point linspace has 12 entries. -/
theorem linspace12_length (lo hi : Nat) : (linspace12 lo hi).length = 12 := by
  rw [linspace12, List.length_map, List.length_range]

/-- Iterating over a single session pairs every subject with it. -/
theorem iterable_singleton (subjects : List String) (s : String) :
    iterable_combinations subjects [s] = subjects.map (fun sub => (sub, s)) := by
  induction subjects with
  | nil => rfl
  | cons a t ih =>
    simp only [iterable_combinations, List.flatMap_cons, List.map_cons, List.map_nil,
      List.singleton_append] at ih ⊢
    rw [ih]

/-- create_file_path with the empty session id builds the session-free
path. -/
theorem create_file_path_no_session (sub t1 : String) :
    create_file_path sub "" t1 =
      some ("/data/sub-" ++ sub ++ "/anat/sub-" ++ sub ++ "_" ++ t1 ++ ".nii.gz") := by
  simp [create_file_path, build_path, path_pattern, renderPat, renderAtoms, renderAtom,
    List.lookup, ← String.append_assoc, String.append_empty]

/-- create_file_path with a non-empty session id builds the path with the
two session components. -/
theorem create_file_path_with_session (sub sess t1 : String) (h : sess ≠ "") :
    create_file_path sub sess t1 =
      some ("/data/sub-" ++ sub ++ "/ses-" ++ sess ++ "/anat/sub-" ++ sub ++ "_ses-" ++ sess
        ++ "_" ++ t1 ++ ".nii.gz") := by
  simp [create_file_path, build_path, path_pattern, renderPat, renderAtoms, renderAtom,
    List.lookup, h, ← String.append_assoc, String.append_empty]

/-- The report file path for a non-empty session id. -/
theorem report_file_with_session (sub sess n4f : String) (segs : List String)
    (brain tpl warped : String) (h : sess ≠ "") :
    (write_report sub sess n4f segs brain tpl warped).report_file =
      "/data/derivatives/fmriflows/" ++ ("sub-" ++ sub ++ "_ses-" ++ sess ++ ".html") := by
  simp [write_report, h]

/-- The report file path for the empty session id. -/
theorem report_file_no_session (sub n4f : String) (segs : List String)
    (brain tpl warped : String) :
    (write_report sub "" n4f segs brain tpl warped).report_file =
      "/data/derivatives/fmriflows/" ++ ("sub-" ++ sub ++ ".html") := by
  simp [write_report]

/-! ## The claims -/

/-- C1: the workflow has exactly six processing steps and, for every
subject/session pair fed in by the infosource iterator, the connect list
wires them in dependency order: the selected anatomical file is
reoriented to RAS, the reoriented image is FOV-cropped, the cropped image
is N4 bias-corrected, the (gunzipped) bias-corrected image is segmented,
the brain mask and brain are computed from the bias-corrected image and
the segmentation maps, and the extracted brain is registered to the
resampled template (antsreg's fixed image is the resampled template
path). -/
theorem claim_C1_six_steps_in_order :
    (processingSteps.length = 6 ∧
     Conn.mk infosource "subject_id" selectfiles "subject_id" ∈ connections ∧
     Conn.mk infosource "session_id" selectfiles "session_id" ∈ connections ∧
     Conn.mk selectfiles "anat" reorient "in_file" ∈ connections ∧
     reorient_orientation = "RAS" ∧
     Conn.mk reorient "out_file" cropFOV "in_file" ∈ connections ∧
     Conn.mk cropFOV "out_roi" n4 "input_image" ∈ connections ∧
     Conn.mk n4 "output_image" gunzip "in_file" ∈ connections ∧
     Conn.mk gunzip "out_file" segment "channel_files" ∈ connections ∧
     Conn.mk segment "native_class_images" extract_brain "segments" ∈ connections ∧
     Conn.mk n4 "output_image" extract_brain "in_file" ∈ connections ∧
     Conn.mk extract_brain "out_file" antsreg "moving_image" ∈ connections) ∧
    ∀ norm_res : List String, (antsreg_config norm_res).fixed_image = norm_template norm_res :=
  ⟨by decide, fun _ => rfl⟩

/-- C2: the brain mask of get_brain_and_mask depends only on the five
tissue probability maps (not on the input image), equals the claimed
voxelwise predicate refined by two binary dilations, hole filling and one
binary erosion, and the extracted brain is the voxelwise product of the
input image and this mask. -/
theorem claim_C2_brain_mask {d : Dims} {H H2 : Type} (f1 f2 : String)
    (img : Nifti d H) (img2 : Nifti d H2) (segs : SegmentMaps d) :
    (get_brain_and_mask f1 img segs).maskImg.data
      = (get_brain_and_mask f2 img2 segs).maskImg.data ∧
    (get_brain_and_mask f1 img segs).maskImg.data
      = (fun p => b2q (refinedBrainMask segs p)) ∧
    (get_brain_and_mask f1 img segs).brain.data
      = (fun p => img.data p * b2q (refinedBrainMask segs p)) :=
  ⟨rfl, rfl, rfl⟩

/-- C3: the connect list is a DAG over the named steps: the node names
are pairwise distinct, every connection carries a producer's output field
into a consumer's input field, and no nonempty chain of connections
returns to its starting node. -/
theorem claim_C3_dag :
    (nodes.map nameOf).Nodup ∧
    List.Forall (fun c => c.srcField ∈ outputFieldsOf c.src ∧ inputOk c.dst c.dstField = true)
      connections ∧
    ∀ nd : NodeName, ¬ Relation.TransGen Depends nd nd :=
  ⟨by decide, by decide,
   fun _ h => absurd (transGen_depends_lt h) (Nat.lt_irrefl _)⟩

/-- Witness for C3: instantiating the acyclicity part at the reorient
node. -/
theorem claim_C3_dag_witness :
    ¬ Relation.TransGen Depends NodeName.reorient NodeName.reorient :=
  claim_C3_dag.2.2 NodeName.reorient

/-- C4: create_file_path returns the session-free path exactly when the
session id is empty, and the path with /ses- directory and _ses- file
components exactly when it is non-empty. -/
theorem claim_C4_create_file_path (sub sess t1 : String) :
    create_file_path sub "" t1 =
      some ("/data/sub-" ++ sub ++ "/anat/sub-" ++ sub ++ "_" ++ t1 ++ ".nii.gz") ∧
    (sess ≠ "" →
      create_file_path sub sess t1 =
        some ("/data/sub-" ++ sub ++ "/ses-" ++ sess ++ "/anat/sub-" ++ sub ++ "_ses-" ++ sess
          ++ "_" ++ t1 ++ ".nii.gz")) :=
  ⟨create_file_path_no_session sub t1,
   fun h => create_file_path_with_session sub sess t1 h⟩

/-- Witness for C4 at subject 001, session 01, identifier T1w. -/
theorem claim_C4_witness :
    ("01" : String) ≠ "" ∧
    create_file_path "001" "01" "T1w" =
      some ("/data/sub-" ++ "001" ++ "/ses-" ++ "01" ++ "/anat/sub-" ++ "001" ++ "_ses-"
        ++ "01" ++ "_" ++ "T1w" ++ ".nii.gz") :=
  ⟨by decide, (claim_C4_create_file_path "001" "01" "T1w").2 (by decide)⟩

/-- C5: write_report writes the report to the session-suffixed HTML path
exactly when the session id is non-empty, and its three SVG outputs come
from the brain and warped-image paths by the stated replacements. -/
theorem claim_C5_write_report (sub sess n4f : String) (segs : List String)
    (brain tpl warped : String) :
    (write_report sub sess n4f segs brain tpl warped).out_segmentation
      = pyReplace brain "brain.nii.gz" "segmentation.svg" ∧
    (write_report sub sess n4f segs brain tpl warped).out_brain
      = pyReplace brain ".nii.gz" ".svg" ∧
    (write_report sub sess n4f segs brain tpl warped).out_warp
      = pyReplace warped ".nii.gz" ".svg" ∧
    (sess ≠ "" →
      (write_report sub sess n4f segs brain tpl warped).report_file
        = "/data/derivatives/fmriflows/" ++ ("sub-" ++ sub ++ "_ses-" ++ sess ++ ".html")) ∧
    (sess = "" →
      (write_report sub sess n4f segs brain tpl warped).report_file
        = "/data/derivatives/fmriflows/" ++ ("sub-" ++ sub ++ ".html")) := by
  refine ⟨rfl, rfl, rfl, fun h => report_file_with_session sub sess n4f segs brain tpl warped h,
    fun h => ?_⟩
  subst h
  exact report_file_no_session sub n4f segs brain tpl warped

/-- Witness for C5: concrete subject/session and paths, with the suffix
replacements evaluated. -/
theorem claim_C5_witness :
    ("01" : String) ≠ "" ∧
    (write_report "001" "01" "n4.nii.gz" []
        "/w/sub-001/sub-001_ses-01_brain.nii.gz" "tpl.nii.gz" "/w/warped.nii.gz").report_file
      = "/data/derivatives/fmriflows/" ++ ("sub-" ++ "001" ++ "_ses-" ++ "01" ++ ".html") ∧
    pyReplace "/w/sub-001/sub-001_ses-01_brain.nii.gz" "brain.nii.gz" "segmentation.svg"
      = "/w/sub-001/sub-001_ses-01_segmentation.svg" ∧
    pyReplace "/w/sub-001/sub-001_ses-01_brain.nii.gz" ".nii.gz" ".svg"
      = "/w/sub-001/sub-001_ses-01_brain.svg" :=
  ⟨by decide,
   (claim_C5_write_report "001" "01" "n4.nii.gz" []
      "/w/sub-001/sub-001_ses-01_brain.nii.gz" "tpl.nii.gz" "/w/warped.nii.gz").2.2.2.1
     (by decide),
   by decide, by decide⟩

/-- C6: every image-processing algorithm step (reorientation, cropping,
bias correction, segmentation, registration) is a single stock external
interface, not notebook code; the notebook-defined Function nodes are
exactly selectfiles (create_file_path, pure path-string construction),
extract_brain (get_brain_and_mask) and create_report (write_report); and
among them the ones that receive image data — the notebook's own data
transformations — are exactly the brain-mask computation and the report
rendering. -/
theorem claim_C6_external_black_boxes :
    List.Forall (fun nd => isExternalInterface (interfaceOf nd) = true)
      imageProcessingAlgorithmSteps ∧
    functionNodes = [(selectfiles, "create_file_path"), (extract_brain, "get_brain_and_mask"),
      (create_report, "write_report")] ∧
    (functionNodes.filter (fun nf => receivesImageData nf.1)).map Prod.snd
      = specOwnImageTransformations := by
  decide

/-- C7: the notebook runs the workflow with the sequential Linear plugin;
the resulting execution is a single linear schedule containing every node
exactly once, in an order consistent with the dependency graph (so no two
steps ever execute concurrently). -/
theorem claim_C7_sequential_execution :
    runPlugin = "Linear" ∧
    linearSchedule.length = nodes.length ∧
    linearSchedule.Nodup ∧
    List.Forall (fun nd => nd ∈ linearSchedule) nodes ∧
    List.Forall (fun c => linearSchedule.indexOf c.src < linearSchedule.indexOf c.dst)
      connections := by
  decide

/-- C8: the brain mask of get_brain_and_mask is binary (every voxel is 0
or 1, stored as int8), carries the affine and header of the input image,
the extracted brain equals the input at mask-1 voxels and 0 at mask-0
voxels, and the output paths replace .nii in the input path by _brain.nii
and _brainmask.nii. -/
theorem claim_C8_mask_invariants {d : Dims} {H : Type} (in_file : String)
    (img : Nifti d H) (segs : SegmentMaps d) :
    (∀ p, (get_brain_and_mask in_file img segs).maskImg.data p = 0 ∨
      (get_brain_and_mask in_file img segs).maskImg.data p = 1) ∧
    (get_brain_and_mask in_file img segs).maskImg.affine = img.affine ∧
    (get_brain_and_mask in_file img segs).maskImg.header = img.header ∧
    (∀ p, ((get_brain_and_mask in_file img segs).maskImg.data p = 1 →
        (get_brain_and_mask in_file img segs).brain.data p = img.data p) ∧
      ((get_brain_and_mask in_file img segs).maskImg.data p = 0 →
        (get_brain_and_mask in_file img segs).brain.data p = 0)) ∧
    (get_brain_and_mask in_file img segs).out_file = pyReplace in_file ".nii" "_brain.nii" ∧
    (get_brain_and_mask in_file img segs).mask = pyReplace in_file ".nii" "_brainmask.nii" := by
  refine ⟨?_, rfl, rfl, ?_, rfl, rfl⟩
  · intro p
    show b2q (refinedBrainMask segs p) = 0 ∨ b2q (refinedBrainMask segs p) = 1
    cases refinedBrainMask segs p
    · left; rfl
    · right; rfl
  · intro p
    constructor
    · intro h1
      show img.data p * (get_brain_and_mask in_file img segs).maskImg.data p = img.data p
      rw [h1, mul_one]
    · intro h0
      show img.data p * (get_brain_and_mask in_file img segs).maskImg.data p = 0
      rw [h0, mul_zero]

/-- Witness for C8 on a concrete 1x1x1 image (whose single voxel, being
on the border, is erased by the erosion, so the mask is 0 and the brain
voxel is 0), with the output path evaluated. -/
theorem claim_C8_witness :
    (get_brain_and_mask "sub-001_T1w_corrected.nii.gz"
        (⟨fun _ => 2, fun _ _ => 0, ()⟩ : Nifti ⟨1, 1, 1⟩ Unit)
        (⟨fun _ => 1, fun _ => 1, fun _ => 0, fun _ => 0, fun _ => 0⟩ :
          SegmentMaps ⟨1, 1, 1⟩)).brain.data (0, 0, 0) = 0 ∧
    (get_brain_and_mask "sub-001_T1w_corrected.nii.gz"
        (⟨fun _ => 2, fun _ _ => 0, ()⟩ : Nifti ⟨1, 1, 1⟩ Unit)
        (⟨fun _ => 1, fun _ => 1, fun _ => 0, fun _ => 0, fun _ => 0⟩ :
          SegmentMaps ⟨1, 1, 1⟩)).out_file = "sub-001_T1w_corrected_brain.nii.gz" :=
  ⟨((claim_C8_mask_invariants "sub-001_T1w_corrected.nii.gz"
      (⟨fun _ => 2, fun _ _ => 0, ()⟩ : Nifti ⟨1, 1, 1⟩ Unit)
      (⟨fun _ => 1, fun _ => 1, fun _ => 0, fun _ => 0, fun _ => 0⟩ :
        SegmentMaps ⟨1, 1, 1⟩)).2.2.2.1 (0, 0, 0)).2 (by decide),
   by decide⟩

/-- C9: get_cut_ids fails (returns none, modelling the ValueError of
idx.min() on an empty array) exactly on an all-zero image; whenever it
succeeds it returns exactly 8 cut coordinates, namely the 12 evenly
spaced truncated values between the minimum and maximum nonzero index
along the chosen axis with the first two and last two dropped, mapped
through the affine. -/
theorem claim_C9_get_cut_ids {d : Dims} {H : Type} (img : Nifti d H) (axis : Fin 3) :
    (get_cut_ids img axis = none ↔ ∀ p, img.data p = 0) ∧
    (∀ l, get_cut_ids img axis = some l → l.length = 8) ∧
    (∀ h : (nonzeroIdx img axis).Nonempty,
      get_cut_ids img axis =
        some ((((linspace12 ((nonzeroIdx img axis).min' h)
            ((nonzeroIdx img axis).max' h)).drop 2).take 8).map
          (coordTransformAxis img.affine axis))) := by
  by_cases h : (nonzeroIdx img axis).Nonempty
  · refine ⟨?_, ?_, ?_⟩
    · simp only [get_cut_ids, dif_pos h]
      constructor
      · intro hsome; cases hsome
      · intro hz
        obtain ⟨p, hp⟩ := (nonzeroIdx_nonempty_iff img axis).mp h
        exact absurd (hz p) hp
    · intro l hl
      simp only [get_cut_ids, dif_pos h] at hl
      obtain rfl : _ = l := Option.some.inj hl
      rw [List.length_map, List.length_take, List.length_drop, linspace12_length]
      decide
    · intro h2
      simp only [get_cut_ids, dif_pos h]
  · refine ⟨?_, ?_, ?_⟩
    · simp only [get_cut_ids, dif_neg h]
      constructor
      · intro _
        intro p
        by_contra hp
        exact h ((nonzeroIdx_nonempty_iff img axis).mpr ⟨p, hp⟩)
      · intro _; trivial
    · intro l hl
      simp only [get_cut_ids, dif_neg h] at hl
      cases hl
    · intro h2; exact absurd h2 h

/-- Witness for C9: on a concrete all-zero image the helper fails
(returns none). -/
theorem claim_C9_witness :
    get_cut_ids (⟨fun _ => 0, fun _ _ => 0, ()⟩ : Nifti ⟨2, 1, 1⟩ Unit) (0 : Fin 3) = none :=
  (claim_C9_get_cut_ids (⟨fun _ => 0, fun _ _ => 0, ()⟩ : Nifti ⟨2, 1, 1⟩ Unit) 0).1.mpr
    (fun _ => rfl)

/-- C10: with an empty BIDS session list, session_list becomes the
singleton empty string, the subject/session iterator yields exactly one
pair per subject (each with the empty session id), and the empty session
id selects the session-free branches of create_file_path and
write_report. -/
theorem claim_C10_empty_session_default (subjects : List String) (sub t1 n4f : String)
    (segs : List String) (brain tpl warped : String) :
    session_list [] = [""] ∧
    (iterable_combinations subjects (session_list [])).length = subjects.length ∧
    (∀ pr ∈ iterable_combinations subjects (session_list []), pr.2 = "") ∧
    create_file_path sub "" t1 =
      some ("/data/sub-" ++ sub ++ "/anat/sub-" ++ sub ++ "_" ++ t1 ++ ".nii.gz") ∧
    (write_report sub "" n4f segs brain tpl warped).report_file =
      "/data/derivatives/fmriflows/" ++ ("sub-" ++ sub ++ ".html") := by
  refine ⟨rfl, ?_, ?_, create_file_path_no_session sub t1,
    report_file_no_session sub n4f segs brain tpl warped⟩
  · rw [show session_list [] = [""] from rfl, iterable_singleton, List.length_map]
  · intro pr hpr
    rw [show session_list [] = [""] from rfl, iterable_singleton, List.mem_map] at hpr
    obtain ⟨x, _, rfl⟩ := hpr
    rfl

/-- Witness for C10 with two subjects, exercising the membership
hypothesis at the first produced pair. -/
theorem claim_C10_witness :
    session_list [] = [""] ∧
    (iterable_combinations ["001", "002"] (session_list [])).length
      = (["001", "002"] : List String).length ∧
    (("001", "") : String × String).2 = "" :=
  ⟨(claim_C10_empty_session_default ["001", "002"] "001" "T1w" "" [] "" "" "").1,
   (claim_C10_empty_session_default ["001", "002"] "001" "T1w" "" [] "" "" "").2.1,
   (claim_C10_empty_session_default ["001", "002"] "001" "T1w" "" [] "" "" "").2.2.1
     ("001", "") (by decide)⟩

end FmriFlows
